import Mathlib

/-!
Verification of the Metricool MCP server (TypeScript sources `src/index.ts`
and the API client module).  The data model and the operations are embedded
shallowly: JavaScript objects become structures with `Option` fields for
optional properties, JavaScript numbers holding counts become `Nat`
(engagement scores become `Int`), the truthiness-based `||` fallbacks of the
source are modelled explicitly, `Array.prototype.sort` (guaranteed stable by
the ECMAScript specification) is modelled by `List.mergeSort`, and the
`fetch`/`throw`/`catch` control flow becomes `Except` values threaded through
a total dispatch function.
-/

/-- Models the JavaScript expression `a || d` for optional numeric fields:
`undefined` and `0` are falsy, so the fallback `d` is used exactly when the
field is absent or zero. -/
def jsNumOr (a : Option Nat) (d : Nat) : Nat :=
  match a with
  | some v => if v = 0 then d else v
  | none => d

/-- Models the JavaScript expression `a || d` where `a` is an optional string
and the result is a string: `undefined` and the empty string are falsy. -/
def jsStrOrD (a : Option String) (d : String) : String :=
  match a with
  | some s => if s = "" then d else s
  | none => d

/-- Models the JavaScript expression `a || b` on two optional strings, where
the overall value may still be `undefined`: if `a` is truthy (present and
non-empty) the result is `a`, otherwise it is whatever `b` is. -/
def jsOrOptStr (a b : Option String) : Option String :=
  match a with
  | some s => if s = "" then b else some s
  | none => b

/-- Models the JavaScript expression `field && nm` from the brand formatting
code: `undefined && nm` is `undefined`, `"" && nm` is `""`, and a truthy
string yields `nm`. -/
def jsAndStr (field : Option String) (nm : String) : Option String :=
  match field with
  | none => none
  | some v => if v = "" then some "" else some nm

/-- Models `.filter(Boolean)` on an array whose entries are strings or falsy
values (`undefined` modelled as `none`, the falsy empty string as
`some ""`): only truthy strings survive. -/
def jsFilterBoolean (l : List (Option String)) : List String :=
  l.filterMap (fun x =>
    match x with
    | none => none
    | some s => if s = "" then none else some s)

/-- Models JavaScript array indexing `l[i]` with an integer index: negative
or out-of-range indices yield `undefined` (here `none`). -/
def jsIndex (l : List String) (i : Int) : Option String :=
  if i < 0 then none else l[i.toNat]?

/-- Models `s.substring(0, n) + (s.length > n ? "..." : "")` from the post
reshaping code. -/
def truncateText (s : String) (n : Nat) : String :=
  s.take n ++ (if n < s.length then "..." else "")

/-- Substring containment, used to state that error messages carry the
status code and the response body. -/
def strContains (s t : String) : Prop :=
  ∃ pre post, s = pre ++ t ++ post

/- ## Data model (from the client module's interfaces) -/

/-- Raw LinkedIn analytics record (interface `LinkedInPost`): every field is
optional, several logical values have alternate field names. -/
structure LinkedInPost where
  id : Option String
  postId : Option String
  text : Option String
  content : Option String
  publishedAt : Option String
  date : Option String
  impressions : Option Nat
  engagements : Option Nat
  engagement : Option Nat
  clicks : Option Nat
  likes : Option Nat
  comments : Option Nat
  shares : Option Nat
  reactions : Option Nat
deriving DecidableEq

/-- A blank analytics record with every optional field absent. -/
def emptyPost : LinkedInPost :=
  ⟨none, none, none, none, none, none, none, none, none, none, none, none, none, none⟩

/-- Publication date object `{dateTime, timezone}` of a scheduled post. -/
structure PublicationDate where
  dateTime : String
  timezone : String
deriving DecidableEq

/-- One target network of a scheduled post (interface `ScheduledPost.providers`
entry). -/
structure Provider where
  network : String
  status : String
  detailedStatus : String
  publicUrl : Option String
deriving DecidableEq

/-- A scheduled post as returned by the upstream scheduler (interface
`ScheduledPost`). -/
structure ScheduledPost where
  id : Int
  uuid : String
  text : String
  publicationDate : PublicationDate
  providers : List Provider
  draft : Bool
deriving DecidableEq

/-- A connected brand/account (interface `Brand`): the per-network handle
fields are optional strings. -/
structure Brand where
  id : Int
  label : String
  twitter : Option String
  facebook : Option String
  instagram : Option String
  linkedinCompany : Option String
  youtube : Option String
  tiktok : Option String
  threads : Option String
  bluesky : Option String
deriving DecidableEq

/-- A recommended posting slot (interface `BestTimeSlot`). -/
structure BestTimeSlot where
  dayOfWeek : Int
  hour : Int
  score : Int
deriving DecidableEq

/- ## API client (from the client module) -/

/-- The upstream HTTP response as far as the client's `request` method
observes it: a status code, the raw body text, and the value that
`response.json()` would produce on success. -/
structure UpstreamResponse (α : Type) where
  status : Nat
  bodyText : String
  json : α

/-- The error message built by `MetricoolClient.request` for a non-2xx
response. -/
def errorMessage (status : Nat) (bodyText : String) : String :=
  "Metricool API error (" ++ toString status ++ "): " ++ bodyText

/-- Models `MetricoolClient.request`: `response.ok` is true exactly for
statuses 200-299; otherwise the method throws an `Error` carrying the status
and the body text, modelled as `Except.error`. -/
def request {α : Type} (resp : UpstreamResponse α) : Except String α :=
  if 200 ≤ resp.status ∧ resp.status ≤ 299 then Except.ok resp.json
  else Except.error (errorMessage resp.status resp.bodyText)

/-- Input of `MetricoolClient.schedulePost` (interface `SchedulePostParams`). -/
structure SchedulePostParams where
  brandId : String
  text : String
  dateTime : String
  timezone : Option String
  network : Option String
  imageUrl : Option String
deriving DecidableEq

/-- The LinkedIn-specific payload attached to the scheduling body. -/
structure LinkedinData where
  previewIncluded : Bool
  type : String
deriving DecidableEq

/-- One entry of the `providers` list of the scheduling body. -/
structure ProviderRef where
  network : String
deriving DecidableEq

/-- The JSON-serialised request body built by `MetricoolClient.schedulePost`.
Keys whose JavaScript value is `undefined` (the `linkedinData` key on
non-LinkedIn networks) are dropped by `JSON.stringify`, so they are
modelled as `none`. -/
structure PostBody where
  text : String
  publicationDate : PublicationDate
  providers : List ProviderRef
  autoPublish : Bool
  linkedinData : Option LinkedinData
  media : Option (List String)
deriving DecidableEq

/-- Models `const network = params.network || "linkedin"`. -/
def resolveNetwork (params : SchedulePostParams) : String :=
  jsStrOrD params.network "linkedin"

/-- Models `params.timezone || "America/Costa_Rica"`. -/
def resolveTimezone (params : SchedulePostParams) : String :=
  jsStrOrD params.timezone "America/Costa_Rica"

/-- Models the body construction of `MetricoolClient.schedulePost`, including
the truthiness test `if (params.imageUrl)` guarding the media attachment. -/
def schedulePostBody (params : SchedulePostParams) : PostBody :=
  let network := resolveNetwork params
  { text := params.text
    publicationDate := { dateTime := params.dateTime, timezone := resolveTimezone params }
    providers := [{ network := network }]
    autoPublish := true
    linkedinData :=
      if network = "linkedin" then some { previewIncluded := true, type := "POST" } else none
    media :=
      match params.imageUrl with
      | some u => if u = "" then none else some [u]
      | none => none }

/- ## Tool dispatcher (from `src/index.ts`) -/

/-- The brand summary produced by the `metricool_get_brands` case. -/
structure FormattedBrand where
  id : String
  name : String
  networks : List String
deriving DecidableEq

/-- The reshaped scheduled post produced by the `metricool_get_scheduled_posts`
case. -/
structure ReshapedPost where
  id : Int
  uuid : String
  text : String
  scheduledDate : String
  timezone : String
  networks : List String
  status : String
deriving DecidableEq

/-- The `summary` object of the `metricool_get_analytics` response. -/
structure AnalyticsSummary where
  impressions : Nat
  engagements : Nat
  engagementRate : String
  clicks : Nat
  likes : Nat
  comments : Nat
  shares : Nat
deriving DecidableEq

/-- One entry of the `topPosts` list of the analytics response. -/
structure TopPost where
  id : Option String
  text : String
  publishedAt : Option String
  impressions : Nat
  engagements : Nat
deriving DecidableEq

/-- The success payload of the `metricool_schedule_post` case. -/
structure ScheduleOut where
  message : String
  postId : Int
  uuid : String
  scheduledDate : String
  networks : List String
deriving DecidableEq

/-- The analytics success payload. -/
structure AnalyticsOut where
  summary : AnalyticsSummary
  postCount : Nat
  topPosts : List TopPost
deriving DecidableEq

/-- One entry of the `topSlots` list of the best-time response: the `day`
field is `none` when `DAYS_OF_WEEK[s.dayOfWeek]` is `undefined`, in which
case `JSON.stringify` omits the key. -/
structure FormattedSlot where
  day : Option String
  time : String
  score : Int
deriving DecidableEq

/-- The JSON text payload a tool call serialises, by shape. -/
inductive ToolResponse where
  | brandsOut (brands : List FormattedBrand)
  | scheduleOut (out : ScheduleOut)
  | scheduledPostsOut (count : Nat) (posts : List ReshapedPost)
  | analyticsOut (out : AnalyticsOut)
  | bestTimeOut (recommendation : String) (topSlots : List FormattedSlot)
  | unknownToolOut (error : String)
  | failureOut (error : String)
deriving DecidableEq

/-- The arguments object of a tool invocation (all string-typed and
optional at the protocol level). -/
structure ToolArgs where
  brandId : Option String
  text : Option String
  dateTime : Option String
  timezone : Option String
  imageUrl : Option String
  startDate : Option String
  endDate : Option String
deriving DecidableEq

/-- What each client method would produce if invoked while serving a tool
call: either the parsed data or the message of the thrown error. -/
structure ClientBehavior where
  getBrands : Except String (List Brand)
  schedulePost : Except String ScheduledPost
  getScheduledPosts : Except String (List ScheduledPost)
  getAnalytics : Except String (List LinkedInPost)
  getBestTime : Except String (List BestTimeSlot)

/-- A client behaviour in which every method fails with message `e` —
the situation after a non-2xx upstream response. -/
def allFail (e : String) : ClientBehavior :=
  ⟨Except.error e, Except.error e, Except.error e, Except.error e, Except.error e⟩

/-- Models the try/catch of the dispatch handler around one client call:
a thrown error is converted into the `{success:false, error}` payload with
the `isError` flag (the second component) set. -/
def tryTool {α : Type} (r : Except String α) (handler : α → ToolResponse) :
    ToolResponse × Bool :=
  match r with
  | Except.ok a => (handler a, false)
  | Except.error e => (ToolResponse.failureOut e, true)

/-- Models the `formattedBrands` computation of the brands case, including
the truthiness filtering `[b.x && "x", ...].filter(Boolean)`. -/
def formattedBrands (brands : List Brand) : List FormattedBrand :=
  brands.map (fun b =>
    { id := toString b.id
      name := b.label
      networks := jsFilterBoolean
        [jsAndStr b.linkedinCompany "linkedin",
         jsAndStr b.twitter "twitter",
         jsAndStr b.facebook "facebook",
         jsAndStr b.instagram "instagram",
         jsAndStr b.youtube "youtube",
         jsAndStr b.tiktok "tiktok",
         jsAndStr b.threads "threads",
         jsAndStr b.bluesky "bluesky"] })

/-- Handler of the `metricool_get_brands` case. -/
def getBrandsHandler (brands : List Brand) : ToolResponse :=
  ToolResponse.brandsOut (formattedBrands brands)

/-- Handler of the `metricool_schedule_post` case (success branch). -/
def schedulePostHandler (result : ScheduledPost) : ToolResponse :=
  ToolResponse.scheduleOut
    { message := "Post scheduled successfully"
      postId := result.id
      uuid := result.uuid
      scheduledDate := result.publicationDate.dateTime
      networks := result.providers.map (fun p => p.network) }

/-- Models the `pendingPosts` filter: keep posts having at least one provider
whose status is exactly `"PENDING"`. -/
def pendingPosts (posts : List ScheduledPost) : List ScheduledPost :=
  posts.filter (fun p => p.providers.any (fun prov => prov.status == "PENDING"))

/-- Models the per-post reshaping of the scheduled-posts case, including the
100-character truncation and the `providers[0]?.detailedStatus || "Unknown"`
fallback. -/
def reshapePost (p : ScheduledPost) : ReshapedPost :=
  { id := p.id
    uuid := p.uuid
    text := truncateText p.text 100
    scheduledDate := p.publicationDate.dateTime
    timezone := p.publicationDate.timezone
    networks := p.providers.map (fun prov => prov.network)
    status := jsStrOrD (p.providers.head?.map (fun prov => prov.detailedStatus)) "Unknown" }

/-- Handler of the `metricool_get_scheduled_posts` case. -/
def getScheduledPostsHandler (posts : List ScheduledPost) : ToolResponse :=
  let pending := pendingPosts posts
  ToolResponse.scheduledPostsOut pending.length (pending.map reshapePost)

/-- The totals accumulator of the analytics case. -/
@[ext]
structure Totals where
  impressions : Nat
  engagements : Nat
  clicks : Nat
  likes : Nat
  comments : Nat
  shares : Nat
deriving DecidableEq

/-- Models the engagement value used both in the totals and in the top-posts
comparator: `p.engagements || p.engagement || 0`. -/
def engagementValue (p : LinkedInPost) : Nat :=
  jsNumOr p.engagements (jsNumOr p.engagement 0)

/-- Models the likes value of the totals: `p.likes || p.reactions || 0`. -/
def likesValue (p : LinkedInPost) : Nat :=
  jsNumOr p.likes (jsNumOr p.reactions 0)

/-- One step of the `posts.reduce` fold computing the totals. -/
def totalsStep (acc : Totals) (p : LinkedInPost) : Totals :=
  { impressions := acc.impressions + jsNumOr p.impressions 0
    engagements := acc.engagements + engagementValue p
    clicks := acc.clicks + jsNumOr p.clicks 0
    likes := acc.likes + likesValue p
    comments := acc.comments + jsNumOr p.comments 0
    shares := acc.shares + jsNumOr p.shares 0 }

/-- Models the `totals` reduction of the analytics case. -/
def totals (posts : List LinkedInPost) : Totals :=
  posts.foldl totalsStep ⟨0, 0, 0, 0, 0, 0⟩

/-- Models `Number.prototype.toFixed(2)` on an exact rational: the nearest
multiple of 1/100, ties picking the larger candidate, rendered with two
fractional digits.  (The source computes with IEEE doubles; the exact
rational is the idealised value of the same expression.) -/
def toFixed2 (q : ℚ) : String :=
  let n : Int := ⌊q * 100 + 1 / 2⌋
  let sign := if n < 0 then "-" else ""
  let m := n.natAbs
  let frac := m % 100
  sign ++ toString (m / 100) ++ "." ++ (if frac < 10 then "0" else "") ++ toString frac

/-- Models the `engagementRate` computation, guarded by
`totals.impressions > 0`. -/
def engagementRate (t : Totals) : String :=
  if 0 < t.impressions then
    toFixed2 ((t.engagements : ℚ) / (t.impressions : ℚ) * 100)
  else "0.00"

/-- The rate string placed in the analytics summary (rate plus `%`). -/
def rateString (t : Totals) : String :=
  engagementRate t ++ "%"

/-- The ordering under which the stable JS sort of the analytics case places
`a` before `b`: the comparator `(b', a') => engVal(a') - engVal(b')` is
non-positive exactly when `engagementValue b ≤ engagementValue a`. -/
def postLE (a b : LinkedInPost) : Bool :=
  decide (engagementValue b ≤ engagementValue a)

/-- Models `[...posts].sort((a, b) => engVal(b) - engVal(a))`: a stable sort,
descending by engagement value. -/
def sortedPosts (posts : List LinkedInPost) : List LinkedInPost :=
  posts.mergeSort postLE

/-- Models `p.text || p.content || ""` of the top-posts mapping. -/
def analyticsTextOf (p : LinkedInPost) : String :=
  jsStrOrD p.text (jsStrOrD p.content "")

/-- The per-record mapping of the top-posts list. -/
def mkTopPost (p : LinkedInPost) : TopPost :=
  { id := jsOrOptStr p.id p.postId
    text := truncateText (analyticsTextOf p) 80
    publishedAt := jsOrOptStr p.publishedAt p.date
    impressions := jsNumOr p.impressions 0
    engagements := engagementValue p }

/-- Models the `topPosts` computation: stable descending sort on a spread
copy, first five, reshaped. -/
def topPosts (posts : List LinkedInPost) : List TopPost :=
  ((sortedPosts posts).take 5).map mkTopPost

/-- Handler of the `metricool_get_analytics` case. -/
def getAnalyticsHandler (posts : List LinkedInPost) : ToolResponse :=
  let t := totals posts
  ToolResponse.analyticsOut
    { summary :=
        { impressions := t.impressions
          engagements := t.engagements
          engagementRate := rateString t
          clicks := t.clicks
          likes := t.likes
          comments := t.comments
          shares := t.shares }
      postCount := posts.length
      topPosts := topPosts posts }

/-- The `DAYS_OF_WEEK` array of the best-time case. -/
def DAYS_OF_WEEK : List String :=
  ["Sunday", "Monday", "Tuesday", "Wednesday", "Thursday", "Friday", "Saturday"]

/-- Models the `formatHour` helper of the best-time case. -/
def formatHour (hour : Int) : String :=
  let suffix := if 12 ≤ hour then "PM" else "AM"
  let displayHour := if hour = 0 then (12 : Int) else if 12 < hour then hour - 12 else hour
  toString displayHour ++ ":00 " ++ suffix

/-- The ordering under which the stable JS sort of the best-time case places
`a` before `b`: comparator `(a, b) => b.score - a.score`. -/
def slotLE (a b : BestTimeSlot) : Bool :=
  decide (b.score ≤ a.score)

/-- Models `[...slots].sort((a, b) => b.score - a.score)`. -/
def sortedSlots (slots : List BestTimeSlot) : List BestTimeSlot :=
  slots.mergeSort slotLE

/-- Models `sortedSlots.slice(0, 5)`. -/
def topSlots (slots : List BestTimeSlot) : List BestTimeSlot :=
  (sortedSlots slots).take 5

/-- The per-slot mapping of the best-time case; the `day` lookup uses raw
JS indexing and may produce `undefined`. -/
def formatSlot (s : BestTimeSlot) : FormattedSlot :=
  { day := jsIndex DAYS_OF_WEEK s.dayOfWeek
    time := formatHour s.hour
    score := s.score }

/-- The fixed advisory string of the best-time response. -/
def bestTimeRecommendation : String :=
  "Based on your audience engagement patterns, here are the best times to post:"

/-- Handler of the `metricool_get_best_time` case. -/
def getBestTimeHandler (slots : List BestTimeSlot) : ToolResponse :=
  ToolResponse.bestTimeOut bestTimeRecommendation ((topSlots slots).map formatSlot)

/-- The five catalog entries of the `TOOLS` table. -/
def toolNames : List String :=
  ["metricool_get_brands", "metricool_schedule_post", "metricool_get_scheduled_posts",
   "metricool_get_analytics", "metricool_get_best_time"]

/-- Models the `switch` of the `CallToolRequestSchema` handler together with
its surrounding try/catch: the result is the serialised payload shape and
the `isError` flag. -/
def dispatch (name : String) (args : ToolArgs) (client : ClientBehavior) :
    ToolResponse × Bool :=
  if name = "metricool_get_brands" then tryTool client.getBrands getBrandsHandler
  else if name = "metricool_schedule_post" then tryTool client.schedulePost schedulePostHandler
  else if name = "metricool_get_scheduled_posts" then
    tryTool client.getScheduledPosts getScheduledPostsHandler
  else if name = "metricool_get_analytics" then tryTool client.getAnalytics getAnalyticsHandler
  else if name = "metricool_get_best_time" then tryTool client.getBestTime getBestTimeHandler
  else (ToolResponse.unknownToolOut ("Unknown tool: " ++ name), true)

/- ## Array-store model of the sorting steps (mutation / frame behaviour)

The two sorted views are computed on spread copies (`[...posts].sort`,
`[...slots].sort`).  To make the frame claim about the fetched arrays
meaningful, the relevant lines are re-embedded over an explicit store of
JS arrays: `[...]` allocates a fresh array, `.sort` writes the sorted
contents back through the reference it was called on. -/

/-- A reference to a JS array in the store. -/
structure ArrRef where
  id : Nat
deriving DecidableEq

/-- A store of JS arrays over element type `α`: a fresh-id counter and the
contents at each id. -/
structure Store (α : Type) where
  next : Nat
  contents : Nat → List α

/-- Reads the array behind a reference. -/
def readArr {α : Type} (s : Store α) (r : ArrRef) : List α :=
  s.contents r.id

/-- Writes the array behind a reference. -/
def writeArr {α : Type} (s : Store α) (r : ArrRef) (v : List α) : Store α :=
  { next := s.next, contents := fun n => if n = r.id then v else s.contents n }

/-- Allocates a fresh array holding `v`. -/
def allocArr {α : Type} (s : Store α) (v : List α) : Store α × ArrRef :=
  ({ next := s.next + 1, contents := fun n => if n = s.next then v else s.contents n },
   ⟨s.next⟩)

/-- Models the JS expression `[...a].sort(cmp)`: the spread allocates a copy,
`sort` sorts that copy in place (a write through the copy's reference) and
evaluates to the copy's reference. -/
def spreadSortArr {α : Type} (s : Store α) (r : ArrRef) (le : α → α → Bool) :
    Store α × ArrRef :=
  let copyAlloc := allocArr s (readArr s r)
  let s1 := copyAlloc.1
  let c := copyAlloc.2
  (writeArr s1 c ((readArr s1 c).mergeSort le), c)

/-- The `topPosts` computation of the analytics case, run against the array
store: returns the store after the sort and the reshaped top-five list. -/
def topPostsView (s : Store LinkedInPost) (r : ArrRef) :
    Store LinkedInPost × List TopPost :=
  let res := spreadSortArr s r postLE
  (res.1, ((readArr res.1 res.2).take 5).map mkTopPost)

/-- The `topSlots` computation of the best-time case, run against the array
store: returns the store after the sort and the formatted top-five list. -/
def topSlotsView (s : Store BestTimeSlot) (r : ArrRef) :
    Store BestTimeSlot × List FormattedSlot :=
  let res := spreadSortArr s r slotLE
  (res.1, ((readArr res.1 res.2).take 5).map formatSlot)

/- ## Definitions following the spec's words (for the refinement claims) -/

/-- Modelled from the claim's words for the analytics totals: the engagements
contribution uses the plural field, falling back to the singular field only
when the plural is absent, a missing field contributing zero. -/
def claimEngagementsOf (p : LinkedInPost) : Nat :=
  match p.engagements with
  | some v => v
  | none =>
    match p.engagement with
    | some w => w
    | none => 0

/-- Modelled from the claim's words: the likes contribution uses `likes`,
falling back to `reactions` only when `likes` is absent. -/
def claimLikesOf (p : LinkedInPost) : Nat :=
  match p.likes with
  | some v => v
  | none =>
    match p.reactions with
    | some w => w
    | none => 0

/-- Modelled from the amended claim's words: the singular field is used when
the plural is absent or zero (the falsy cases of the source's `||`). -/
def amendedEngagementsOf (p : LinkedInPost) : Nat :=
  match p.engagements with
  | some v =>
    if v = 0 then
      match p.engagement with
      | some w => w
      | none => 0
    else v
  | none =>
    match p.engagement with
    | some w => w
    | none => 0

/-- Modelled from the amended claim's words: `reactions` is used when `likes`
is absent or zero. -/
def amendedLikesOf (p : LinkedInPost) : Nat :=
  match p.likes with
  | some v =>
    if v = 0 then
      match p.reactions with
      | some w => w
      | none => 0
    else v
  | none =>
    match p.reactions with
    | some w => w
    | none => 0

/-- The fixed-order candidate list of network names paired with the brand
field each one is derived from. -/
def netCandidates (b : Brand) : List (String × Option String) :=
  [("linkedin", b.linkedinCompany), ("twitter", b.twitter), ("facebook", b.facebook),
   ("instagram", b.instagram), ("youtube", b.youtube), ("tiktok", b.tiktok),
   ("threads", b.threads), ("bluesky", b.bluesky)]

/-- Modelled from the claim's words for the brand networks: include each
network name exactly when the corresponding handle field is present. -/
def claimNetworksOf (b : Brand) : List String :=
  (netCandidates b).filterMap (fun pair =>
    if pair.2.isSome then some pair.1 else none)

/-- Modelled from the amended claim's words: include each network name
exactly when the corresponding handle field is present and non-empty. -/
def amendedNetworksOf (b : Brand) : List String :=
  (netCandidates b).filterMap (fun pair =>
    match pair.2 with
    | some s => if s = "" then none else some pair.1
    | none => none)

/- ## Concrete inputs used by examples, witnesses and counterexamples -/

/-- The first record of the spec's aggregation example:
`{impressions:100, engagements:10}`. -/
def exPost1 : LinkedInPost :=
  { emptyPost with impressions := some 100, engagements := some 10 }

/-- The second record of the spec's aggregation example:
`{impressions:50, engagement:5}` (singular field). -/
def exPost2 : LinkedInPost :=
  { emptyPost with impressions := some 50, engagement := some 5 }

/-- A record whose plural engagements field is present but zero while the
singular field is 5: the source's `||` falls back, the claim's
present-field rule does not. -/
def cexPost : LinkedInPost :=
  { emptyPost with engagements := some 0, engagement := some 5 }

/-- A brand whose only handle field is present but empty. -/
def cexBrand : Brand :=
  { id := 7, label := "Acme", twitter := some "", facebook := none,
    instagram := none, linkedinCompany := none, youtube := none, tiktok := none,
    threads := none, bluesky := none }

/-- Scheduling parameters with an empty-string image URL (supplied but
falsy). -/
def cexParams : SchedulePostParams :=
  { brandId := "1", text := "hello", dateTime := "2024-01-15T10:00:00",
    timezone := none, network := none, imageUrl := some "" }

/-- Scheduling parameters with a non-empty image URL. -/
def witParams : SchedulePostParams :=
  { brandId := "1", text := "hello", dateTime := "2024-01-15T10:00:00",
    timezone := none, network := none, imageUrl := some "img.png" }

/-- Arguments carrying only a brand id, as the read-only tools use. -/
def witArgs : ToolArgs :=
  { brandId := some "1", text := none, dateTime := none, timezone := none,
    imageUrl := none, startDate := none, endDate := none }

/- ## Helper lemmas -/

/-- Stability of `mergeSort` in filter form: on any class of elements that
are pairwise interchangeable under the ordering, sorting does not change the
subsequence they form. -/
theorem filter_mergeSort_eq {α : Type} (le : α → α → Bool)
    (htrans : ∀ a b c, le a b → le b c → le a c)
    (htotal : ∀ a b, le a b || le b a)
    (p : α → Bool) (hp : ∀ a b, p a → p b → le a b)
    (l : List α) :
    (l.mergeSort le).filter p = l.filter p := by
  have hpw : (l.filter p).Pairwise (fun a b => le a b) := by
    apply List.pairwise_of_forall_mem_list
    intro a ha b hb
    exact hp a b (List.mem_filter.mp ha).2 (List.mem_filter.mp hb).2
  have hsub : List.Sublist (l.filter p) (l.mergeSort le) :=
    List.sublist_mergeSort htrans htotal hpw (List.filter_sublist l)
  have hself : (l.filter p).filter p = l.filter p :=
    List.filter_eq_self.mpr (fun a ha => (List.mem_filter.mp ha).2)
  have hsub2 : List.Sublist (l.filter p) ((l.mergeSort le).filter p) := by
    have := hsub.filter p
    rwa [hself] at this
  have hlen : ((l.mergeSort le).filter p).length = (l.filter p).length :=
    ((List.mergeSort_perm l le).filter p).length_eq
  exact (hsub2.eq_of_length hlen.symm).symm

/-- The slot ordering is transitive. -/
theorem slotLE_trans : ∀ a b c : BestTimeSlot, slotLE a b → slotLE b c → slotLE a c := by
  intro a b c hab hbc
  simp only [slotLE, decide_eq_true_eq] at *
  omega

/-- The slot ordering is total. -/
theorem slotLE_total : ∀ a b : BestTimeSlot, slotLE a b || slotLE b a := by
  intro a b
  simp only [slotLE, Bool.or_eq_true, decide_eq_true_eq]
  omega

/-- The post ordering is transitive. -/
theorem postLE_trans : ∀ a b c : LinkedInPost, postLE a b → postLE b c → postLE a c := by
  intro a b c hab hbc
  simp only [postLE, decide_eq_true_eq] at *
  omega

/-- The post ordering is total. -/
theorem postLE_total : ∀ a b : LinkedInPost, postLE a b || postLE b a := by
  intro a b
  simp only [postLE, Bool.or_eq_true, decide_eq_true_eq]
  omega

/-- Closed form of the totals fold, for an arbitrary accumulator. -/
theorem foldl_totalsStep (posts : List LinkedInPost) : ∀ acc : Totals,
    posts.foldl totalsStep acc =
      { impressions := acc.impressions + (posts.map (fun p => jsNumOr p.impressions 0)).sum
        engagements := acc.engagements + (posts.map engagementValue).sum
        clicks := acc.clicks + (posts.map (fun p => jsNumOr p.clicks 0)).sum
        likes := acc.likes + (posts.map likesValue).sum
        comments := acc.comments + (posts.map (fun p => jsNumOr p.comments 0)).sum
        shares := acc.shares + (posts.map (fun p => jsNumOr p.shares 0)).sum } := by
  induction posts with
  | nil => intro acc; simp
  | cons p ps ih =>
    intro acc
    rw [List.foldl_cons, ih]
    ext <;> simp [totalsStep] <;> omega

/-- The truthiness fallback to `0` coincides with `getD 0`. -/
theorem jsNumOr_zero (a : Option Nat) : jsNumOr a 0 = a.getD 0 := by
  cases a with
  | none => rfl
  | some v => by_cases h : v = 0 <;> simp [jsNumOr, h]

/-- The source's engagement fallback agrees with the amended claim's rule. -/
theorem engagementValue_eq_amended (p : LinkedInPost) :
    engagementValue p = amendedEngagementsOf p := by
  unfold engagementValue amendedEngagementsOf jsNumOr
  cases p.engagements <;> cases p.engagement <;> dsimp only <;> split_ifs <;> omega

/-- The source's likes fallback agrees with the amended claim's rule. -/
theorem likesValue_eq_amended (p : LinkedInPost) :
    likesValue p = amendedLikesOf p := by
  unfold likesValue amendedLikesOf jsNumOr
  cases p.likes <;> cases p.reactions <;> dsimp only <;> split_ifs <;> omega

/- ## Claim theorems -/

/-- C1, counterexample: on a record whose plural `engagements` field is
present but zero and whose singular `engagement` field is 5, the source's
truthiness fallback contributes 5 to the total, while the claim's
present-field rule (fall back only when the plural is absent) contributes 0,
so the claimed totals formula is false on this input. -/
theorem analytics_totals_plural_zero_cex :
    (totals [cexPost]).engagements = 5 ∧
    ([cexPost].map claimEngagementsOf).sum = 0 ∧
    (totals [cexPost]).engagements ≠ ([cexPost].map claimEngagementsOf).sum := by
  refine ⟨rfl, rfl, ?_⟩
  decide

/-- C1 (amended): the summary totals sum, over all records, impressions,
engagements, clicks, likes, comments and shares, where the engagements
contribution falls back from the plural to the singular field when the
plural is absent OR ZERO (the falsy cases of the source's `||`), the likes
contribution falls back from `likes` to `reactions` when `likes` is absent
or zero, and a missing field contributes zero; on the two example records
`{impressions:100, engagements:10}` and `{impressions:50, engagement:5}` the
totals are 150 impressions and 15 engagements. -/
theorem analytics_totals_amended :
    (∀ posts : List LinkedInPost,
      (totals posts).impressions = (posts.map (fun p => p.impressions.getD 0)).sum ∧
      (totals posts).engagements = (posts.map amendedEngagementsOf).sum ∧
      (totals posts).clicks = (posts.map (fun p => p.clicks.getD 0)).sum ∧
      (totals posts).likes = (posts.map amendedLikesOf).sum ∧
      (totals posts).comments = (posts.map (fun p => p.comments.getD 0)).sum ∧
      (totals posts).shares = (posts.map (fun p => p.shares.getD 0)).sum) ∧
    (totals [exPost1, exPost2]).impressions = 150 ∧
    (totals [exPost1, exPost2]).engagements = 15 := by
  refine ⟨fun posts => ?_, rfl, rfl⟩
  rw [totals, foldl_totalsStep]
  have he : engagementValue = amendedEngagementsOf := funext engagementValue_eq_amended
  have hl : likesValue = amendedLikesOf := funext likesValue_eq_amended
  refine ⟨?_, ?_, ?_, ?_, ?_, ?_⟩ <;> simp [jsNumOr_zero, he, hl]

/-- C2: both sorted views are stable descending sorts truncated to five:
the sorted slot list is a permutation of the input, pairwise descending by
score, and on every score class it preserves the input subsequence (the
stability property); the output is its first five entries.  The same holds
for the analytics top-posts list with respect to the engagement value
(plural field, falling back to the singular, else zero). -/
theorem top_five_sort_stable :
    ∀ (slots : List BestTimeSlot) (posts : List LinkedInPost),
      (sortedSlots slots).Perm slots ∧
      (sortedSlots slots).Pairwise (fun a b => b.score ≤ a.score) ∧
      (∀ sc : Int, (sortedSlots slots).filter (fun x => x.score == sc) =
        slots.filter (fun x => x.score == sc)) ∧
      topSlots slots = (sortedSlots slots).take 5 ∧
      (sortedPosts posts).Perm posts ∧
      (sortedPosts posts).Pairwise (fun a b => engagementValue b ≤ engagementValue a) ∧
      (∀ v : Nat, (sortedPosts posts).filter (fun p => engagementValue p == v) =
        posts.filter (fun p => engagementValue p == v)) ∧
      topPosts posts = ((sortedPosts posts).take 5).map mkTopPost := by
  intro slots posts
  refine ⟨List.mergeSort_perm slots slotLE, ?_, ?_, rfl,
    List.mergeSort_perm posts postLE, ?_, ?_, rfl⟩
  · exact (List.sorted_mergeSort slotLE_trans slotLE_total slots).imp
      (fun h => by simpa [slotLE] using h)
  · intro sc
    exact filter_mergeSort_eq slotLE slotLE_trans slotLE_total _
      (fun a b ha hb => by
        simp only [beq_iff_eq] at ha hb
        simp [slotLE, ha, hb]) slots
  · exact (List.sorted_mergeSort postLE_trans postLE_total posts).imp
      (fun h => by simpa [postLE] using h)
  · intro v
    exact filter_mergeSort_eq postLE postLE_trans postLE_total _
      (fun a b ha hb => by
        simp only [beq_iff_eq] at ha hb
        simp [postLE, ha, hb]) posts

/-- C3, counterexample: with an image URL that is supplied but empty, the
truthiness guard `if (params.imageUrl)` skips the media attachment, so the
claimed "when an image URL is supplied, the body contains a single-element
media list" fails. -/
theorem schedule_body_empty_image_cex :
    cexParams.imageUrl.isSome = true ∧ (schedulePostBody cexParams).media = none := by
  exact ⟨rfl, rfl⟩

/-- C3 (amended): every scheduling body carries the text, the
`{dateTime, timezone}` publication date, the single-provider list, an
always-true auto-publish flag, and the LinkedIn payload
`{previewIncluded: true, type: "POST"}` exactly when the resolved network is
`"linkedin"`; when a NON-EMPTY image URL is supplied the body additionally
carries the single-element media list. -/
theorem schedule_body_amended (params : SchedulePostParams) :
    (schedulePostBody params).text = params.text ∧
    (schedulePostBody params).publicationDate =
      { dateTime := params.dateTime, timezone := resolveTimezone params } ∧
    (schedulePostBody params).providers = [{ network := resolveNetwork params }] ∧
    (schedulePostBody params).autoPublish = true ∧
    ((schedulePostBody params).linkedinData =
        some { previewIncluded := true, type := "POST" } ↔
      resolveNetwork params = "linkedin") ∧
    (∀ u : String, params.imageUrl = some u → u ≠ "" →
      (schedulePostBody params).media = some [u]) := by
  refine ⟨rfl, rfl, rfl, rfl, ?_, ?_⟩
  · unfold schedulePostBody
    dsimp only
    by_cases h : resolveNetwork params = "linkedin" <;> simp [h]
  · intro u hu hne
    unfold schedulePostBody
    dsimp only
    rw [hu]
    simp [hne]

/-- C3 witness: a call with image URL `"img.png"` produces a body with the
auto-publish flag set and the single-element media list. -/
theorem schedule_body_amended_witness :
    (schedulePostBody witParams).autoPublish = true ∧
    (schedulePostBody witParams).media = some ["img.png"] :=
  ⟨(schedule_body_amended witParams).2.2.2.1,
   (schedule_body_amended witParams).2.2.2.2.2 "img.png" rfl (by decide)⟩

/-- C4: when the total impressions are zero the reported rate is exactly
`"0.00%"` (no division happens); otherwise the rate is
`engagements / impressions * 100` rendered to two decimals with a `%`
suffix; on the spec's example records the rate is `"10.00%"`. -/
theorem engagement_rate_guard (posts : List LinkedInPost) :
    ((totals posts).impressions = 0 → rateString (totals posts) = "0.00%") ∧
    (0 < (totals posts).impressions →
      rateString (totals posts) =
        toFixed2 (((totals posts).engagements : ℚ) / ((totals posts).impressions : ℚ) * 100)
          ++ "%") ∧
    rateString (totals [exPost1, exPost2]) = "10.00%" := by
  refine ⟨?_, ?_, ?_⟩
  · intro h
    unfold rateString engagementRate
    rw [h]
    rfl
  · intro h
    unfold rateString engagementRate
    rw [if_pos h]
  · have ht : totals [exPost1, exPost2] =
        { impressions := 150, engagements := 15, clicks := 0, likes := 0,
          comments := 0, shares := 0 } := rfl
    rw [ht]
    unfold rateString engagementRate
    rw [if_pos (by norm_num)]
    dsimp only
    have h : (((15 : Nat) : ℚ) / ((150 : Nat) : ℚ) * 100) = 10 := by norm_num
    rw [h]
    have h2 : ⌊(10 : ℚ) * 100 + 1 / 2⌋ = (1000 : Int) := by
      rw [Int.floor_eq_iff]
      norm_num
    unfold toFixed2
    rw [h2]
    rfl

/-- C4 witness: the zero-impressions branch at the empty record list, and
the positive branch at the example records. -/
theorem engagement_rate_guard_witness :
    rateString (totals []) = "0.00%" ∧
    rateString (totals [exPost1, exPost2]) =
      toFixed2 (((totals [exPost1, exPost2]).engagements : ℚ) /
        ((totals [exPost1, exPost2]).impressions : ℚ) * 100) ++ "%" :=
  ⟨(engagement_rate_guard []).1 rfl,
   (engagement_rate_guard [exPost1, exPost2]).2.1 (by decide)⟩

/-- C5: the scheduled-posts tool keeps exactly the posts having at least one
provider with status exactly `"PENDING"`, and its count field is the number
of surviving posts. -/
theorem pending_posts_filter :
    ∀ (posts : List ScheduledPost) (p : ScheduledPost),
      (p ∈ pendingPosts posts ↔
        p ∈ posts ∧ ∃ prov ∈ p.providers, prov.status = "PENDING") ∧
      getScheduledPostsHandler posts =
        ToolResponse.scheduledPostsOut (pendingPosts posts).length
          ((pendingPosts posts).map reshapePost) := by
  intro posts p
  constructor
  · simp [pendingPosts, List.mem_filter, List.any_eq_true]
  · rfl

/-- C6: a non-2xx upstream response makes the client's `request` fail with a
message containing both the status code and the body text, and for every
catalog tool a failing client call is caught at the dispatch boundary and
converted into the failure-flagged `{success:false, error}` payload rather
than propagated. -/
theorem upstream_error_propagation :
    ∀ {α : Type} (resp : UpstreamResponse α) (name : String) (args : ToolArgs) (e : String),
      (¬(200 ≤ resp.status ∧ resp.status ≤ 299) →
        request resp = Except.error (errorMessage resp.status resp.bodyText) ∧
        strContains (errorMessage resp.status resp.bodyText) (toString resp.status) ∧
        strContains (errorMessage resp.status resp.bodyText) resp.bodyText) ∧
      (name ∈ toolNames →
        dispatch name args (allFail e) = (ToolResponse.failureOut e, true)) := by
  intro α resp name args e
  constructor
  · intro h
    refine ⟨?_, ?_, ?_⟩
    · unfold request
      rw [if_neg h]
    · refine ⟨"Metricool API error (", "): " ++ resp.bodyText, ?_⟩
      unfold errorMessage
      rw [String.append_assoc]
    · refine ⟨"Metricool API error (" ++ toString resp.status ++ "): ", "", ?_⟩
      rw [String.append_empty]
      rfl
  · intro hmem
    have h5 : name = "metricool_get_brands" ∨ name = "metricool_schedule_post" ∨
        name = "metricool_get_scheduled_posts" ∨ name = "metricool_get_analytics" ∨
        name = "metricool_get_best_time" := by
      simpa [toolNames] using hmem
    rcases h5 with h | h | h | h | h <;> subst h <;> rfl

/-- C6 witness: status 403 with body `"forbidden"`, and a failing client
behind the brands tool. -/
theorem upstream_error_propagation_witness :
    (request (⟨403, "forbidden", ()⟩ : UpstreamResponse Unit) =
        Except.error (errorMessage 403 "forbidden") ∧
      strContains (errorMessage 403 "forbidden") (toString 403) ∧
      strContains (errorMessage 403 "forbidden") "forbidden") ∧
    dispatch "metricool_get_brands" witArgs (allFail "boom") =
      (ToolResponse.failureOut "boom", true) :=
  ⟨(upstream_error_propagation (⟨403, "forbidden", ()⟩ : UpstreamResponse Unit)
      "metricool_get_brands" witArgs "boom").1 (by decide),
   (upstream_error_propagation (⟨403, "forbidden", ()⟩ : UpstreamResponse Unit)
      "metricool_get_brands" witArgs "boom").2 (by decide)⟩

/-- C7: a name outside the five-entry catalog produces the error-flagged
payload with the exact text `Unknown tool: <name>`, and the result does not
depend on the client at all (no client method is consulted). -/
theorem unknown_tool_dispatch :
    ∀ (name : String) (args : ToolArgs) (c1 c2 : ClientBehavior),
      name ∉ toolNames →
      dispatch name args c1 =
        (ToolResponse.unknownToolOut ("Unknown tool: " ++ name), true) ∧
      dispatch name args c1 = dispatch name args c2 := by
  intro name args c1 c2 h
  have h5 : ¬(name = "metricool_get_brands" ∨ name = "metricool_schedule_post" ∨
      name = "metricool_get_scheduled_posts" ∨ name = "metricool_get_analytics" ∨
      name = "metricool_get_best_time") := by
    simpa [toolNames] using h
  push_neg at h5
  obtain ⟨h1, h2, h3, h4, h6⟩ := h5
  refine ⟨?_, ?_⟩ <;> simp [dispatch, h1, h2, h3, h4, h6]

/-- C7 witness: the client-exposed but uncataloged deletion operation name. -/
theorem unknown_tool_dispatch_witness :
    dispatch "metricool_delete_post" witArgs (allFail "a") =
      (ToolResponse.unknownToolOut ("Unknown tool: " ++ "metricool_delete_post"), true) ∧
    dispatch "metricool_delete_post" witArgs (allFail "a") =
      dispatch "metricool_delete_post" witArgs (allFail "b") :=
  ⟨(unknown_tool_dispatch "metricool_delete_post" witArgs (allFail "a") (allFail "b")
      (by decide)).1,
   (unknown_tool_dispatch "metricool_delete_post" witArgs (allFail "a") (allFail "b")
      (by decide)).2⟩

/-- Unfolding step of `jsFilterBoolean`. -/
theorem jsFilterBoolean_cons (x : Option String) (l : List (Option String)) :
    jsFilterBoolean (x :: l) =
      (match x with
       | none => jsFilterBoolean l
       | some s => if s = "" then jsFilterBoolean l else s :: jsFilterBoolean l) := by
  unfold jsFilterBoolean
  rw [List.filterMap_cons]
  cases x with
  | none => rfl
  | some s => by_cases h : s = "" <;> simp [h]

/-- The dispatcher's truthy-entry pipeline over a candidate list with
non-empty names equals the direct present-and-non-empty filter. -/
theorem jsFilterBoolean_map_candidates :
    ∀ (l : List (String × Option String)), (∀ pair ∈ l, pair.1 ≠ "") →
      jsFilterBoolean (l.map (fun pair => jsAndStr pair.2 pair.1)) =
        l.filterMap (fun pair =>
          match pair.2 with
          | some s => if s = "" then none else some pair.1
          | none => none) := by
  intro l
  induction l with
  | nil => intro _; rfl
  | cons head tail ih =>
    intro hne
    obtain ⟨nm, f⟩ := head
    have hnm : nm ≠ "" := hne (nm, f) (List.mem_cons_self _ _)
    have ht : ∀ pair ∈ tail, pair.1 ≠ "" := fun pair hp => hne pair (List.mem_cons_of_mem _ hp)
    rw [List.map_cons, jsFilterBoolean_cons, List.filterMap_cons]
    cases f with
    | none =>
      have hhead : jsAndStr none nm = none := rfl
      rw [hhead]
      simpa using ih ht
    | some v =>
      have hhead : jsAndStr (some v) nm = if v = "" then some "" else some nm := rfl
      rw [hhead]
      by_cases hv : v = ""
      · simp only [hv, ite_true]
        simpa using ih ht
      · simp only [hv, ite_false]
        simp only [hnm, ite_false]
        simpa [hv] using ih ht

/-- Per-brand form of the networks computation. -/
theorem formattedBrands_networks (b : Brand) :
    jsFilterBoolean
      [jsAndStr b.linkedinCompany "linkedin", jsAndStr b.twitter "twitter",
       jsAndStr b.facebook "facebook", jsAndStr b.instagram "instagram",
       jsAndStr b.youtube "youtube", jsAndStr b.tiktok "tiktok",
       jsAndStr b.threads "threads", jsAndStr b.bluesky "bluesky"] =
      amendedNetworksOf b := by
  have hmap :
      [jsAndStr b.linkedinCompany "linkedin", jsAndStr b.twitter "twitter",
       jsAndStr b.facebook "facebook", jsAndStr b.instagram "instagram",
       jsAndStr b.youtube "youtube", jsAndStr b.tiktok "tiktok",
       jsAndStr b.threads "threads", jsAndStr b.bluesky "bluesky"] =
        (netCandidates b).map (fun pair => jsAndStr pair.2 pair.1) := rfl
  rw [hmap, jsFilterBoolean_map_candidates (netCandidates b) ?hne]
  · rfl
  · intro pair hp
    simp only [netCandidates, List.mem_cons, List.not_mem_nil, or_false] at hp
    rcases hp with h | h | h | h | h | h | h | h <;> subst h <;> simp

/-- C8, counterexample: a brand whose only handle field is present but empty
yields an empty networks list, while the claim's presence rule would
include the network; so "contains exactly the names whose handle field is
present" is false on this brand. -/
theorem brand_networks_empty_handle_cex :
    formattedBrands [cexBrand] = [{ id := "7", name := "Acme", networks := [] }] ∧
    claimNetworksOf cexBrand = ["twitter"] := by
  constructor <;> rfl

/-- C8 (amended): each formatted brand carries the stringified id, the
label as name, and the networks whose handle field is present AND NON-EMPTY
(the truthiness test of the source), in the fixed order linkedin, twitter,
facebook, instagram, youtube, tiktok, threads, bluesky. -/
theorem brand_networks_amended :
    ∀ brands : List Brand,
      formattedBrands brands =
        brands.map (fun b =>
          { id := toString b.id, name := b.label, networks := amendedNetworksOf b }) := by
  intro brands
  unfold formattedBrands
  apply List.map_congr_left
  intro b _
  rw [formattedBrands_networks b]

/-- C9: computing the top-five views leaves the fetched arrays untouched —
after running the analytics and best-time sorting steps over the array
store, reading back the fetched reference yields exactly the original
contents (same elements, same order), because the sort writes only to the
freshly allocated spread copy; and the views computed from the copies agree
with the pure top-five functions on the fetched contents. -/
theorem fetched_arrays_unchanged :
    ∀ (sp : Store LinkedInPost) (rp : ArrRef) (ss : Store BestTimeSlot) (rs : ArrRef),
      rp.id < sp.next → rs.id < ss.next →
      readArr (topPostsView sp rp).1 rp = readArr sp rp ∧
      (topPostsView sp rp).2 = topPosts (readArr sp rp) ∧
      readArr (topSlotsView ss rs).1 rs = readArr ss rs ∧
      (topSlotsView ss rs).2 = (topSlots (readArr ss rs)).map formatSlot := by
  intro sp rp ss rs hp hs
  have hpne : rp.id ≠ sp.next := by omega
  have hsne : rs.id ≠ ss.next := by omega
  refine ⟨?_, ?_, ?_, ?_⟩
  · simp [topPostsView, spreadSortArr, allocArr, readArr, writeArr, hpne]
  · simp [topPostsView, spreadSortArr, allocArr, readArr, writeArr,
      topPosts, sortedPosts]
  · simp [topSlotsView, spreadSortArr, allocArr, readArr, writeArr, hsne]
  · simp [topSlotsView, spreadSortArr, allocArr, readArr, writeArr,
      topSlots, sortedSlots]

/-- A one-array store holding the example analytics records. -/
def witStoreP : Store LinkedInPost :=
  { next := 1, contents := fun n => if n = 0 then [exPost1, exPost2] else [] }

/-- A one-array store holding a best-time slot. -/
def witStoreS : Store BestTimeSlot :=
  { next := 1, contents := fun n => if n = 0 then [⟨1, 9, 50⟩] else [] }

/-- C9 witness: concrete one-array stores. -/
theorem fetched_arrays_unchanged_witness :
    readArr (topPostsView witStoreP ⟨0⟩).1 ⟨0⟩ = readArr witStoreP ⟨0⟩ ∧
    readArr (topSlotsView witStoreS ⟨0⟩).1 ⟨0⟩ = readArr witStoreS ⟨0⟩ :=
  ⟨(fetched_arrays_unchanged witStoreP ⟨0⟩ witStoreS ⟨0⟩ (by decide) (by decide)).1,
   (fetched_arrays_unchanged witStoreP ⟨0⟩ witStoreS ⟨0⟩ (by decide) (by decide)).2.2.1⟩

/-- C10: the weekday lookup is total — indices 0 through 6 yield Sunday
through Saturday, any index outside 0..6 yields `none` (the `day` key is
then absent from the serialised slot), and the best-time dispatch still
returns the success-shaped payload (error flag `false`) for every slot
list, including slots whose day index is out of range. -/
theorem weekday_lookup_total :
    (∀ i : Int,
      (0 ≤ i ∧ i < 7 → ∃ nm, jsIndex DAYS_OF_WEEK i = some nm) ∧
      (¬(0 ≤ i ∧ i < 7) → jsIndex DAYS_OF_WEEK i = none)) ∧
    (jsIndex DAYS_OF_WEEK 0 = some "Sunday" ∧ jsIndex DAYS_OF_WEEK 1 = some "Monday" ∧
      jsIndex DAYS_OF_WEEK 2 = some "Tuesday" ∧ jsIndex DAYS_OF_WEEK 3 = some "Wednesday" ∧
      jsIndex DAYS_OF_WEEK 4 = some "Thursday" ∧ jsIndex DAYS_OF_WEEK 5 = some "Friday" ∧
      jsIndex DAYS_OF_WEEK 6 = some "Saturday") ∧
    (∀ (args : ToolArgs) (c : ClientBehavior) (slots : List BestTimeSlot),
      c.getBestTime = Except.ok slots →
      dispatch "metricool_get_best_time" args c =
        (ToolResponse.bestTimeOut bestTimeRecommendation ((topSlots slots).map formatSlot),
          false)) := by
  refine ⟨?_, ?_, ?_⟩
  · intro i
    constructor
    · intro hi
      unfold jsIndex
      rw [if_neg (by omega)]
      have hlt : i.toNat < DAYS_OF_WEEK.length := by
        simp only [DAYS_OF_WEEK, List.length_cons, List.length_nil]
        omega
      exact ⟨DAYS_OF_WEEK[i.toNat], List.getElem?_eq_getElem hlt⟩
    · intro hi
      unfold jsIndex
      by_cases hneg : i < 0
      · rw [if_pos hneg]
      · rw [if_neg hneg]
        apply List.getElem?_eq_none
        simp only [DAYS_OF_WEEK, List.length_cons, List.length_nil]
        omega
  · exact ⟨rfl, rfl, rfl, rfl, rfl, rfl, rfl⟩
  · intro args c slots hc
    simp [dispatch, hc, tryTool, getBestTimeHandler]

/-- C10 witness: day index 9 is out of range, and a best-time call whose
only slot has day index 9 still yields the success payload. -/
theorem weekday_lookup_total_witness :
    jsIndex DAYS_OF_WEEK 9 = none ∧
    dispatch "metricool_get_best_time" witArgs
        { getBrands := Except.error "x", schedulePost := Except.error "x",
          getScheduledPosts := Except.error "x", getAnalytics := Except.error "x",
          getBestTime := Except.ok [⟨9, 0, 50⟩] } =
      (ToolResponse.bestTimeOut bestTimeRecommendation
        ((topSlots [⟨9, 0, 50⟩]).map formatSlot), false) :=
  ⟨(weekday_lookup_total.1 9).2 (by decide),
   weekday_lookup_total.2.2 witArgs
     { getBrands := Except.error "x", schedulePost := Except.error "x",
       getScheduledPosts := Except.error "x", getAnalytics := Except.error "x",
       getBestTime := Except.ok [⟨9, 0, 50⟩] } [⟨9, 0, 50⟩] rfl⟩
